import Mathlib

/-
Verification development for the advertising-panel backend (src/server/index.js).

The server is embedded shallowly: each Express handler becomes a pure Lean
function from its request data and the relevant store state to a response
value (and, where the handler writes, a new store state).  External
collaborators (the bcrypt comparison, the JWT verifier, the HMAC digest of
the crypto library) are passed in as function parameters, exactly as the
spec treats them as out of scope.  SQL result sets become Lean lists; the
random draw of Math.floor(1000 + Math.random() * 9000) becomes a value of
Fin 9000 supplied from the outside, and the unbounded while loop of
generateUniqueLinkCode consumes an explicit list of such draws, returning
none when the list is exhausted before a free code is found.
-/

namespace AdPanel

/-- Rows of the links table: user_id, link_code, group_id, created_at and
expires_at (times in milliseconds, as produced by Date.now). -/
structure Link where
  user_id : Nat
  link_code : String
  group_id : Nat
  created_at : Nat
  expires_at : Nat
deriving DecidableEq

/-- Rows of the media table as inserted by the upload handler: the INSERT
stores user_id, the derived type, the stored file path and group_id. -/
structure MediaRow where
  user_id : Nat
  type : String
  file_path : String
  group_id : Option Nat
deriving DecidableEq

/-- One uploaded multipart file as multer presents it to the handler. -/
structure MediaFile where
  mimetype : String
  filename : String
deriving DecidableEq

/-- Rows of the users table that the login handler reads. -/
structure User where
  id : Nat
  email : String
  password_hash : String
deriving DecidableEq

/-- The claims object embedded in a bearer token, as signed by the login
handler: a userId and an email. -/
structure TokenClaims where
  userId : Nat
  email : String
deriving DecidableEq

/-- Rows of the payment_settings table (appended by the admin update
handler; the newest row wins). -/
structure PaymentSetting where
  razorpay_key_id : String
  razorpay_key_secret : String
deriving DecidableEq

/-- Rows of the subscriptions table; active is the entitlement flag. -/
structure Subscription where
  user_id : Nat
  package_id : Nat
  active : Bool
deriving DecidableEq

/-- Rows of the payments table. -/
structure Payment where
  user_id : Nat
  amount : Nat
  mode : String
  status : String
deriving DecidableEq

/-- The store state the payment-verify handler could touch: subscriptions
and payments. -/
structure PayState where
  subscriptions : List Subscription
  payments : List Payment
deriving DecidableEq

/-- One socket.io broadcast: the room name, the event name and the payload
group id carried by the mediaUpdated event. -/
structure BroadcastEvent where
  channel : String
  event : String
  group_id : Option Nat
deriving DecidableEq

/-- The code built from one random draw: Math.floor(1000 + Math.random() *
9000).toString().  Math.random() lies in the half-open unit interval, so
floor(1000 + r * 9000) ranges over 1000..9999; the draw is the value of
floor(r * 9000), an element of Fin 9000. -/
def codeOfDraw (r : Fin 9000) : String := toString (1000 + r.val)

/-- generateUniqueLinkCode of src/server/index.js lines 60..68: loop,
draw a code, SELECT id FROM links WHERE link_code = code, return the code
when the result set is empty, otherwise loop again.  The JS loop is
unbounded; here it consumes one draw per iteration and returns none when
the supplied draws run out without a free code being found. -/
def generateUniqueLinkCode (links : List Link) : List (Fin 9000) → Option String
  | [] => none
  | r :: rest =>
    if (links.filter (fun l => l.link_code == codeOfDraw r)).length = 0 then
      some (codeOfDraw r)
    else generateUniqueLinkCode links rest

/-- Split a character list at every occurrence of the separator character,
keeping empty pieces, exactly as the JS String.prototype.split with a
single-character separator does. -/
def splitChar (c : Char) : List Char → List (List Char)
  | [] => [[]]
  | a :: rest =>
    match splitChar c rest with
    | [] => if a = c then [[], []] else [[a]]
    | h :: t => if a = c then [] :: h :: t else (a :: h) :: t

/-- Outcomes of the authenticateToken middleware (lines 70..81). -/
inductive AuthResult
  | noToken
  | malformed
  | invalid
  | ok (u : TokenClaims)
deriving DecidableEq

/-- authenticateToken of src/server/index.js lines 70..81: a missing or
falsy authorization header yields the 401 no-token response; a header
without a second space-separated part, or with an empty one, yields the
401 malformed response; a failing jwt.verify yields the 403 invalid
response; otherwise the decoded claims are passed on.  The jwt.verify
callback is abstracted as the verify parameter (none models every
verification error: bad signature, expiry, garbage). -/
def authenticateToken (verify : String → Option TokenClaims)
    (authHeader : Option String) : AuthResult :=
  match authHeader with
  | none => AuthResult.noToken
  | some h =>
    if h = "" then AuthResult.noToken
    else
      match (splitChar ' ' h.data).get? 1 with
      | none => AuthResult.malformed
      | some t =>
        if t = [] then AuthResult.malformed
        else
          match verify (List.asString t) with
          | none => AuthResult.invalid
          | some u => AuthResult.ok u

/-- The HTTP response the middleware emits: a status and error body on
failure, the decoded claims handed to the next handler on success. -/
def authHttp (verify : String → Option TokenClaims) (authHeader : Option String) :
    Sum (Nat × String) TokenClaims :=
  match authenticateToken verify authHeader with
  | AuthResult.noToken => Sum.inl (401, "No token provided")
  | AuthResult.malformed => Sum.inl (401, "Malformed token")
  | AuthResult.invalid => Sum.inl (403, "Invalid token")
  | AuthResult.ok u => Sum.inr u

/-- Outcomes of the login handler (lines 130..151). -/
inductive LoginResp
  | validationError
  | invalidCredentials
  | token (t : String)
deriving DecidableEq

/-- The status and body the login handler sends for each outcome. -/
def loginStatusBody : LoginResp → Nat × String
  | LoginResp.validationError => (400, "Email and password are required")
  | LoginResp.invalidCredentials => (401, "Invalid credentials")
  | LoginResp.token t => (200, t)

/-- The login handler of src/server/index.js lines 130..151: missing or
falsy email or password yields 400; SELECT id, password_hash FROM users
WHERE email = ? returning no row yields the invalid-credentials response;
a failing bcrypt.compare yields the same invalid-credentials response;
otherwise a signed token is returned.  bcryptCompare and signToken stand
for the external bcrypt and jwt libraries. -/
def login (bcryptCompare : String → String → Bool) (signToken : Nat → String → String)
    (users : List User) (email password : Option String) : LoginResp :=
  match email, password with
  | some e, some p =>
    if e = "" ∨ p = "" then LoginResp.validationError
    else
      match users.find? (fun u => u.email == e) with
      | none => LoginResp.invalidCredentials
      | some u =>
        if bcryptCompare p u.password_hash then LoginResp.token (signToken u.id e)
        else LoginResp.invalidCredentials
  | _, _ => LoginResp.validationError

/-- Outcomes of the media upload handler (lines 154..174). -/
inductive UploadResp
  | validationError
  | success
deriving DecidableEq

/-- The derived media type: file.mimetype.split of the slash, first part. -/
def mediaTypeOf (mimetype : String) : String :=
  match splitChar '/' mimetype.data with
  | t :: _ => List.asString t
  | [] => ""

/-- The media upload handler of src/server/index.js lines 154..174: zero
files yields the 400 no-files response; otherwise one media row per file
is inserted (user_id, mimetype prefix, filename, groupId) and a single
mediaUpdated event is emitted to the room user_userId. -/
def mediaUpload (userId : Nat) (files : List MediaFile) (groupId : Option Nat)
    (media : List MediaRow) (events : List BroadcastEvent) :
    UploadResp × List MediaRow × List BroadcastEvent :=
  if files.isEmpty then (UploadResp.validationError, media, events)
  else
    let rows := files.map (fun f =>
      ({ user_id := userId, type := mediaTypeOf f.mimetype,
         file_path := f.filename, group_id := groupId } : MediaRow))
    (UploadResp.success, media ++ rows,
      events ++ [{ channel := "user_" ++ toString userId, event := "mediaUpdated",
                   group_id := groupId }])

/-- Outcomes of the link generation handler (lines 189..204). -/
inductive GenerateResp
  | validationError
  | link (url : String)
deriving DecidableEq

/-- The link generation handler of src/server/index.js lines 189..204:
a missing or falsy groupId yields 400; otherwise a fresh code is drawn by
generateUniqueLinkCode and a links row is inserted whose expires_at is
Date.now() plus 30 * 24 * 60 * 60 * 1000 milliseconds.  The result is
none exactly when the allocator itself never returns on the supplied
draws. -/
def linkGenerate (now : Nat) (domain : Option String) (userId : Nat)
    (groupId : Option Nat) (links : List Link) (draws : List (Fin 9000)) :
    Option (GenerateResp × List Link) :=
  match groupId with
  | none => some (GenerateResp.validationError, links)
  | some g =>
    if g = 0 then some (GenerateResp.validationError, links)
    else
      match generateUniqueLinkCode links draws with
      | none => none
      | some code =>
        some (GenerateResp.link ((domain.getD "http://localhost:4000") ++ "/" ++ code),
          links ++ [{ user_id := userId, link_code := code, group_id := g,
                      created_at := now,
                      expires_at := now + 30 * 24 * 60 * 60 * 1000 }])

/-- Outcomes of the playback resolver (lines 207..221). -/
inductive LinkContentResp
  | notFound
  | media (rows : List MediaRow)
deriving DecidableEq

/-- The status and error body for the miss outcome of the resolver. -/
def linkContentMissBody : Nat × String := (404, "Link not found or expired")

/-- The playback resolver of src/server/index.js lines 207..221: SELECT *
FROM links WHERE link_code = ? AND expires_at > NOW(); an empty result set
(absent code or expired link alike) yields the single 404 response; on a
hit the media rows WHERE group_id = ? AND user_id = ? of the found link
are returned. -/
def linkContent (now : Nat) (links : List Link) (media : List MediaRow)
    (code : String) : LinkContentResp :=
  match links.find? (fun l => l.link_code == code && decide (now < l.expires_at)) with
  | none => LinkContentResp.notFound
  | some l =>
    LinkContentResp.media
      (media.filter (fun m => m.group_id == some l.group_id && m.user_id == l.user_id))

/-- The single hard-coded administrator address of verifySuperAdmin. -/
def superAdminEmail : String := "admin@gnetworkservices.in"

/-- verifySuperAdmin of src/server/index.js lines 226..233: the request
passes when an authenticated user object carries the administrator email,
and is answered with the 403 forbidden response otherwise. -/
def verifySuperAdmin (user : Option TokenClaims) : Bool :=
  match user with
  | some u => u.email == superAdminEmail
  | none => false

/-- Outcomes of GET /api/admin/payment-settings (lines 236..248). -/
inductive SettingsResp
  | forbidden
  | notFound
  | keyId (k : String)
deriving DecidableEq

/-- The GET payment-settings handler: gated by verifySuperAdmin, then the
newest settings row is read; only the key id is returned. -/
def getPaymentSettings (user : Option TokenClaims)
    (settings : List PaymentSetting) : SettingsResp :=
  if verifySuperAdmin user then
    match settings.getLast? with
    | none => SettingsResp.notFound
    | some s => SettingsResp.keyId s.razorpay_key_id
  else SettingsResp.forbidden

/-- Outcomes of POST /api/admin/payment-settings (lines 251..264). -/
inductive PostSettingsResp
  | forbidden
  | validationError
  | updated
deriving DecidableEq

/-- The POST payment-settings handler: gated by verifySuperAdmin, then
both keys are required and a new settings row is appended. -/
def postPaymentSettings (user : Option TokenClaims) (keyId keySec : Option String)
    (settings : List PaymentSetting) : PostSettingsResp × List PaymentSetting :=
  if verifySuperAdmin user then
    match keyId, keySec with
    | some ki, some ks =>
      if ki = "" ∨ ks = "" then (PostSettingsResp.validationError, settings)
      else (PostSettingsResp.updated,
        settings ++ [{ razorpay_key_id := ki, razorpay_key_secret := ks }])
    | _, _ => (PostSettingsResp.validationError, settings)
  else (PostSettingsResp.forbidden, settings)

/-- Outcomes of the offline payment handler (lines 322..330). -/
inductive OfflineResp
  | forbidden
  | recorded
deriving DecidableEq

/-- The POST /api/payment/offline route as registered in the source: the
middleware chain holds authenticateToken only (no verifySuperAdmin), and
the handler body is a placeholder answering with a success message for
every authenticated caller. -/
def paymentOfflineRoute (verify : String → Option TokenClaims)
    (authHeader : Option String) : Sum (Nat × String) OfflineResp :=
  match authenticateToken verify authHeader with
  | AuthResult.noToken => Sum.inl (401, "No token provided")
  | AuthResult.malformed => Sum.inl (401, "Malformed token")
  | AuthResult.invalid => Sum.inl (403, "Invalid token")
  | AuthResult.ok _ => Sum.inr OfflineResp.recorded

/-- Outcomes of the payment verification handler (lines 297..319). -/
inductive VerifyResp
  | notConfigured
  | validationError
  | invalidSignature
  | success
deriving DecidableEq

/-- The payment verification handler of src/server/index.js lines
297..319: with no gateway instance the 500 not-configured response is
sent; a missing or falsy order id, payment id or signature yields 400;
then the HMAC-SHA256 digest of orderId ++ bar ++ paymentId under the
stored key secret is compared to the supplied signature, a mismatch
yielding the 400 invalid-signature response.  On a match the handler
only sends the success message: the subscription update is an open TODO
in the source, so the store state is returned unchanged on every path.
The digest function of the crypto library is the hmac parameter. -/
def paymentVerify (hmac : String → String → String) (keySecret : Option String)
    (orderId paymentId signature : Option String) (st : PayState) :
    VerifyResp × PayState :=
  match keySecret with
  | none => (VerifyResp.notConfigured, st)
  | some secret =>
    match orderId, paymentId, signature with
    | some o, some p, some s =>
      if o = "" ∨ p = "" ∨ s = "" then (VerifyResp.validationError, st)
      else if hmac secret (o ++ "|" ++ p) ≠ s then (VerifyResp.invalidSignature, st)
      else (VerifyResp.success, st)
    | _, _, _ => (VerifyResp.validationError, st)

/-- A concrete stand-in digest used to instantiate the abstract hmac
parameter in closed evaluations. -/
def sampleHmac (secret msg : String) : String := secret ++ ":" ++ msg

/-- A store state holding one inactive subscription and no payments. -/
def pendingState : PayState :=
  { subscriptions := [{ user_id := 7, package_id := 3, active := false }], payments := [] }

/-- An empty payment store state. -/
def wPayState : PayState := { subscriptions := [], payments := [] }

/-- One full-saturation link row per code. -/
def mkFullLink (r : Fin 9000) : Link :=
  { user_id := 1, link_code := codeOfDraw r, group_id := 1, created_at := 0, expires_at := 0 }

/-- A store in which every one of the 9000 candidate codes is taken. -/
def fullLinks : List Link := (List.finRange 9000).map mkFullLink

/-- A store holding exactly the code 1000, unexpired at time 100. -/
def demoLinks : List Link :=
  [{ user_id := 1, link_code := "1000", group_id := 1, created_at := 0, expires_at := 200 }]

/-- Two draws: the taken code 1000, then the free code 1005. -/
def demoDraws : List (Fin 9000) := [⟨0, by omega⟩, ⟨5, by omega⟩]

/-- An expired link row for the playback counterexample. -/
def expiredLink : Link :=
  { user_id := 1, link_code := "1234", group_id := 5, created_at := 0, expires_at := 50 }

/-- Media rows owned by the expired demo link. -/
def demoMedia : List MediaRow :=
  [{ user_id := 1, type := "image", file_path := "f.png", group_id := some 5 }]

/-- An unexpired link row for the playback witness. -/
def liveLink : Link :=
  { user_id := 2, link_code := "4321", group_id := 9, created_at := 0, expires_at := 5000 }

/-- Media rows for the playback witness: one matching row, one of another
user, one of another group. -/
def wMedia : List MediaRow :=
  [{ user_id := 2, type := "image", file_path := "a.png", group_id := some 9 },
   { user_id := 3, type := "video", file_path := "b.mp4", group_id := some 9 },
   { user_id := 2, type := "image", file_path := "c.png", group_id := some 8 }]

/-- A verifier accepting only the token good, yielding the alice claims. -/
def wVerify : String → Option TokenClaims :=
  fun s => if s = "good" then some { userId := 1, email := "alice@example.com" } else none

/-- A non-administrator claims object. -/
def nonAdmin : TokenClaims := { userId := 2, email := "bob@example.com" }

/-- A verifier accepting only the token good, yielding the bob claims. -/
def wVerifyBob : String → Option TokenClaims :=
  fun s => if s = "good" then some nonAdmin else none

/-- One stored settings row for the admin-gate witness. -/
def wSettings : List PaymentSetting :=
  [{ razorpay_key_id := "rzp_key", razorpay_key_secret := "rzp_secret" }]

/-- One stored user row for the login witness. -/
def wUsers : List User := [{ id := 1, email := "alice@example.com", password_hash := "hash1" }]

/-- A bcrypt comparison rejecting every pair. -/
def wCmpFalse : String → String → Bool := fun _ _ => false

/-- A token signer returning a fixed token. -/
def wSign : Nat → String → String := fun _ _ => "tok"

/-- Two uploaded files for the media witness. -/
def wFiles : List MediaFile :=
  [{ mimetype := "image/png", filename := "a.png" },
   { mimetype := "video/mp4", filename := "b.mp4" }]

/-- The single link row created in the concrete generation run handled at
time 100 with group 4 and the draw 0. -/
def wGenLink : Link :=
  { user_id := 1, link_code := "1000", group_id := 4, created_at := 100,
    expires_at := 2592000100 }

/-- Helper: Nat.toDigitsCore on a one-digit value emits that digit. -/
theorem toDigitsCore_small (fuel n : Nat) (acc : List Char)
    (hn : n < 10) (hf : 0 < fuel) :
    Nat.toDigitsCore 10 fuel n acc = Nat.digitChar n :: acc := by
  match fuel, hf with
  | f + 1, _ =>
    simp only [Nat.toDigitsCore]
    have h0 : n / 10 = 0 := Nat.div_eq_of_lt hn
    simp [h0, Nat.mod_eq_of_lt hn]

/-- Helper: Nat.toDigitsCore peels the least significant digit of a value
of at least two digits. -/
theorem toDigitsCore_step (fuel n : Nat) (acc : List Char) (hn : 10 ≤ n) :
    Nat.toDigitsCore 10 (fuel + 1) n acc =
      Nat.toDigitsCore 10 fuel (n / 10) (Nat.digitChar (n % 10) :: acc) := by
  simp only [Nat.toDigitsCore]
  have h0 : ¬ (n / 10 = 0) := by omega
  simp [h0]

/-- Helper: the digit list of a four-digit value. -/
theorem toDigitsCore_four (fuel n : Nat) (acc : List Char)
    (h1 : 1000 ≤ n) (h2 : n < 10000) (hf : 4 ≤ fuel) :
    Nat.toDigitsCore 10 fuel n acc =
      Nat.digitChar (n / 1000) :: Nat.digitChar (n / 100 % 10) ::
      Nat.digitChar (n / 10 % 10) :: Nat.digitChar (n % 10) :: acc := by
  obtain ⟨f, rfl⟩ : ∃ f, fuel = f + 4 := ⟨fuel - 4, by omega⟩
  rw [show f + 4 = f + 3 + 1 by omega]
  rw [toDigitsCore_step _ _ _ (by omega)]
  rw [show f + 3 = f + 2 + 1 by omega]
  rw [toDigitsCore_step _ _ _ (by omega)]
  rw [show f + 2 = f + 1 + 1 by omega]
  rw [toDigitsCore_step _ _ _ (by omega)]
  rw [toDigitsCore_small _ _ _ (by omega) (by omega)]
  have e1 : n / 10 / 10 = n / 100 := by omega
  have e2 : n / 100 / 10 = n / 1000 := by omega
  rw [e1, e2]

/-- Helper: every decimal digit renders as a digit character. -/
theorem digitChar_isDigit (d : Nat) (h : d < 10) : (Nat.digitChar d).isDigit = true := by
  interval_cases d <;> decide

/-- Helper: each generated code string is four characters, all digits. -/
theorem codeOfDraw_repr (r : Fin 9000) :
    (codeOfDraw r).length = 4 ∧ (codeOfDraw r).data.all Char.isDigit = true := by
  have h1 : 1000 ≤ 1000 + r.val := by omega
  have h2 : 1000 + r.val < 10000 := by omega
  have hrepr : Nat.toDigits 10 (1000 + r.val) =
      Nat.digitChar ((1000 + r.val) / 1000) :: Nat.digitChar ((1000 + r.val) / 100 % 10) ::
      Nat.digitChar ((1000 + r.val) / 10 % 10) :: Nat.digitChar ((1000 + r.val) % 10) :: [] :=
    toDigitsCore_four _ _ _ h1 h2 (by omega)
  have hcode : codeOfDraw r = (Nat.toDigits 10 (1000 + r.val)).asString := rfl
  rw [hcode, hrepr]
  refine ⟨rfl, ?_⟩
  simp only [List.asString, List.all_cons, List.all_nil, Bool.and_true]
  rw [digitChar_isDigit _ (by omega), digitChar_isDigit _ (by omega),
    digitChar_isDigit _ (by omega), digitChar_isDigit _ (by omega)]
  rfl

/-- C2: every code the allocator returns is a 4-digit decimal string with
value in 1000..9999, and at the moment of creation it is not assigned to
any non-expired link in the store (the source checks against all links,
which implies the claim for the non-expired ones). -/
theorem generateUniqueLinkCode_four_digit_unique (links : List Link)
    (draws : List (Fin 9000)) (now : Nat) (code : String)
    (h : generateUniqueLinkCode links draws = some code) :
    (∃ n : Nat, 1000 ≤ n ∧ n ≤ 9999 ∧ code = toString n)
    ∧ code.length = 4 ∧ code.data.all Char.isDigit = true
    ∧ ∀ l ∈ links, now < l.expires_at → l.link_code ≠ code := by
  induction draws with
  | nil => simp [generateUniqueLinkCode] at h
  | cons r rest ih =>
    simp only [generateUniqueLinkCode] at h
    by_cases hf : (links.filter (fun l => l.link_code == codeOfDraw r)).length = 0
    · rw [if_pos hf] at h
      obtain rfl : codeOfDraw r = code := Option.some.inj h
      refine ⟨⟨1000 + r.val, by omega, by omega, rfl⟩,
        (codeOfDraw_repr r).1, (codeOfDraw_repr r).2, ?_⟩
      intro l hl hexp heq
      have hnil : links.filter (fun l => l.link_code == codeOfDraw r) = [] :=
        List.length_eq_zero.mp hf
      have hmem : l ∈ links.filter (fun l => l.link_code == codeOfDraw r) :=
        List.mem_filter.mpr ⟨hl, by simp [heq]⟩
      rw [hnil] at hmem
      exact absurd hmem (List.not_mem_nil l)
    · rw [if_neg hf] at h
      exact ih h

/-- Witness for C2 at a concrete store: the first draw collides with the
stored code 1000, the second draw yields the free code 1005. -/
theorem generateUniqueLinkCode_four_digit_unique_witness :
    (∃ n : Nat, 1000 ≤ n ∧ n ≤ 9999 ∧ "1005" = toString n)
    ∧ ("1005" : String).length = 4 ∧ ("1005" : String).data.all Char.isDigit = true
    ∧ ∀ l ∈ demoLinks, 100 < l.expires_at → l.link_code ≠ "1005" :=
  generateUniqueLinkCode_four_digit_unique demoLinks demoDraws 100 "1005" (by decide)

/-- C3: the allocation loop has no attempt cap.  In a store where all
9000 candidate codes are taken the allocator returns on no draw sequence
whatsoever (the JS loop never returns), and in any store holding at least
one taken and one free code there are, for every n, draw sequences that
make n probes fail before one succeeds. -/
theorem generateUniqueLinkCode_unbounded (links : List Link) :
    ((∀ r : Fin 9000, ∃ l ∈ links, l.link_code = codeOfDraw r) →
      ∀ draws : List (Fin 9000), generateUniqueLinkCode links draws = none)
    ∧ (∀ rt rf : Fin 9000,
        (∃ l ∈ links, l.link_code = codeOfDraw rt) →
        (∀ l ∈ links, l.link_code ≠ codeOfDraw rf) →
        ∀ n : Nat,
          generateUniqueLinkCode links (List.replicate n rt ++ [rf]) =
            some (codeOfDraw rf)) := by
  constructor
  · intro hall draws
    induction draws with
    | nil => rfl
    | cons r rest ih =>
      simp only [generateUniqueLinkCode]
      obtain ⟨l, hl, hcode⟩ := hall r
      have hmem : l ∈ links.filter (fun l2 => l2.link_code == codeOfDraw r) :=
        List.mem_filter.mpr ⟨hl, by simp [hcode]⟩
      have hne : ¬ (links.filter (fun l2 => l2.link_code == codeOfDraw r)).length = 0 := by
        intro h0
        rw [List.length_eq_zero.mp h0] at hmem
        exact absurd hmem (List.not_mem_nil l)
      rw [if_neg hne]
      exact ih
  · intro rt rf htaken hfree n
    induction n with
    | zero =>
      simp only [List.replicate, List.nil_append, generateUniqueLinkCode]
      have hnil : links.filter (fun l2 => l2.link_code == codeOfDraw rf) = [] := by
        rw [List.filter_eq_nil_iff]
        intro l hl
        simp [hfree l hl]
      rw [hnil]
      rfl
    | succ n ih =>
      obtain ⟨l, hl, hcode⟩ := htaken
      simp only [List.replicate, List.cons_append, generateUniqueLinkCode]
      have hmem : l ∈ links.filter (fun l2 => l2.link_code == codeOfDraw rt) :=
        List.mem_filter.mpr ⟨hl, by simp [hcode]⟩
      have hne : ¬ (links.filter (fun l2 => l2.link_code == codeOfDraw rt)).length = 0 := by
        intro h0
        rw [List.length_eq_zero.mp h0] at hmem
        exact absurd hmem (List.not_mem_nil l)
      rw [if_neg hne]
      exact ih

/-- Witness for C3: in the fully saturated store a probe sequence yields
none, and in the demo store two colliding probes precede the success. -/
theorem generateUniqueLinkCode_unbounded_witness :
    generateUniqueLinkCode fullLinks [⟨0, by omega⟩] = none
    ∧ generateUniqueLinkCode demoLinks
        (List.replicate 2 ⟨0, by omega⟩ ++ [⟨5, by omega⟩]) =
          some (codeOfDraw ⟨5, by omega⟩) := by
  constructor
  · exact (generateUniqueLinkCode_unbounded fullLinks).1
      (fun r => ⟨mkFullLink r, List.mem_map_of_mem mkFullLink (List.mem_finRange r), rfl⟩) _
  · exact (generateUniqueLinkCode_unbounded demoLinks).2 ⟨0, by omega⟩ ⟨5, by omega⟩
      ⟨{ user_id := 1, link_code := "1000", group_id := 1, created_at := 0, expires_at := 200 },
        by simp [demoLinks], by decide⟩
      (by decide) 2

/-- C1 evidence (code bug): a verify call whose supplied signature equals
the HMAC digest over orderId, a bar and paymentId under the stored secret
is answered with the success message while the store state comes back
unchanged: the inactive subscription stays inactive and no payment row is
recorded, because the reconciliation step is an open TODO in the source
(src/server/index.js line 313). -/
theorem paymentVerify_success_leaves_state_unchanged :
    paymentVerify sampleHmac (some "sec") (some "order1") (some "pay1")
        (some (sampleHmac "sec" ("order1" ++ "|" ++ "pay1"))) pendingState
      = (VerifyResp.success, pendingState)
    ∧ pendingState.subscriptions = [{ user_id := 7, package_id := 3, active := false }]
    ∧ pendingState.payments = [] := by
  decide

/-- C4: a verify call whose supplied signature differs from the HMAC
digest of orderId, a bar and paymentId under the stored secret is
answered with the invalid-signature response and the store state is
unchanged, so no subscription is activated. -/
theorem paymentVerify_bad_signature_rejected (hmac : String → String → String)
    (secret o p s : String) (st : PayState)
    (ho : o ≠ "") (hp : p ≠ "") (hs : s ≠ "")
    (hmis : hmac secret (o ++ "|" ++ p) ≠ s) :
    paymentVerify hmac (some secret) (some o) (some p) (some s) st =
      (VerifyResp.invalidSignature, st) := by
  simp only [paymentVerify]
  rw [if_neg (fun hc => hc.elim ho (fun h2 => h2.elim hp hs)), if_pos hmis]

/-- Witness for C4 at concrete inputs. -/
theorem paymentVerify_bad_signature_witness :
    paymentVerify sampleHmac (some "sec") (some "orderA") (some "payA")
        (some "wrongsig") wPayState = (VerifyResp.invalidSignature, wPayState) :=
  paymentVerify_bad_signature_rejected sampleHmac "sec" "orderA" "payA" "wrongsig" wPayState
    (by decide) (by decide) (by decide) (by decide)

/-- C5 counterexample: a present, well-formed token that fails
verification (expired or invalid signature) is answered with status 403,
not 401 as the claim states for all four failure cases. -/
theorem authenticateToken_invalid_not_401 :
    authHttp (fun _ => none) (some "Bearer expiredtok") = Sum.inl (403, "Invalid token")
    ∧ (403 : Nat) ≠ 401 := by
  decide

/-- C5 amended: the middleware yields 401 for an absent or malformed
credential, 403 (not 401) for a present token failing verification
(expired or invalid signature), and passes the embedded claims to the
downstream handler on success. -/
theorem authenticateToken_amended (verify : String → Option TokenClaims)
    (h : String) (t : List Char) (u : TokenClaims) :
    authHttp verify none = Sum.inl (401, "No token provided")
    ∧ authHttp verify (some "") = Sum.inl (401, "No token provided")
    ∧ (h ≠ "" → (splitChar ' ' h.data).get? 1 = none →
        authHttp verify (some h) = Sum.inl (401, "Malformed token"))
    ∧ (h ≠ "" → (splitChar ' ' h.data).get? 1 = some [] →
        authHttp verify (some h) = Sum.inl (401, "Malformed token"))
    ∧ (h ≠ "" → (splitChar ' ' h.data).get? 1 = some t → t ≠ [] →
        verify (List.asString t) = none →
        authHttp verify (some h) = Sum.inl (403, "Invalid token"))
    ∧ (h ≠ "" → (splitChar ' ' h.data).get? 1 = some t → t ≠ [] →
        verify (List.asString t) = some u →
        authHttp verify (some h) = Sum.inr u) := by
  refine ⟨rfl, rfl, ?_, ?_, ?_, ?_⟩
  · intro hne hsp
    rw [List.get?_eq_getElem?] at hsp
    simp [authHttp, authenticateToken, hne, hsp]
  · intro hne hsp
    rw [List.get?_eq_getElem?] at hsp
    simp [authHttp, authenticateToken, hne, hsp]
  · intro hne hsp ht hv
    rw [List.get?_eq_getElem?] at hsp
    simp [authHttp, authenticateToken, hne, hsp, ht, hv]
  · intro hne hsp ht hv
    rw [List.get?_eq_getElem?] at hsp
    simp [authHttp, authenticateToken, hne, hsp, ht, hv]

/-- Witness for C5 amended at a concrete verifier and headers. -/
theorem authenticateToken_amended_witness :
    authHttp wVerify none = Sum.inl (401, "No token provided")
    ∧ authHttp wVerify (some "Bearer") = Sum.inl (401, "Malformed token")
    ∧ authHttp wVerify (some "Bearer bad") = Sum.inl (403, "Invalid token")
    ∧ authHttp wVerify (some "Bearer good") =
        Sum.inr { userId := 1, email := "alice@example.com" } := by
  refine ⟨(authenticateToken_amended wVerify "x" [] { userId := 1, email := "a" }).1,
    ?_, ?_, ?_⟩
  · exact (authenticateToken_amended wVerify "Bearer" [] { userId := 1, email := "a" }).2.2.1
      (by decide) (by decide)
  · exact (authenticateToken_amended wVerify "Bearer bad" "bad".data
      { userId := 1, email := "a" }).2.2.2.2.1 (by decide) (by decide) (by decide) (by decide)
  · exact (authenticateToken_amended wVerify "Bearer good" "good".data
      { userId := 1, email := "alice@example.com" }).2.2.2.2.2
      (by decide) (by decide) (by decide) (by decide)

/-- C6: with a present nonempty email and password, the response when no
user row matches the email and the response when a row matches but the
bcrypt comparison fails are the same value, rendered with the same status
and the same error body, so the two failure causes are indistinguishable
to the caller. -/
theorem login_mismatch_indistinguishable (cmp : String → String → Bool)
    (sign : Nat → String → String) (users : List User) (e p : String)
    (he : e ≠ "") (hp : p ≠ "")
    (hcase : users.find? (fun u => u.email == e) = none ∨
      ∃ u, users.find? (fun u => u.email == e) = some u ∧ cmp p u.password_hash = false) :
    login cmp sign users (some e) (some p) = LoginResp.invalidCredentials
    ∧ loginStatusBody (login cmp sign users (some e) (some p)) =
        (401, "Invalid credentials") := by
  have hmain : login cmp sign users (some e) (some p) = LoginResp.invalidCredentials := by
    simp only [login]
    rw [if_neg (fun hc => hc.elim he hp)]
    rcases hcase with hnone | ⟨u, hu, hcmp⟩
    · simp [hnone]
    · simp [hu, hcmp]
  exact ⟨hmain, by rw [hmain]; rfl⟩

/-- Witness for C6: a missing bob row and a present alice row with a
rejecting comparison both yield the identical 401 response. -/
theorem login_mismatch_indistinguishable_witness :
    (login wCmpFalse wSign wUsers (some "bob@example.com") (some "pw123") =
        LoginResp.invalidCredentials
      ∧ loginStatusBody (login wCmpFalse wSign wUsers
          (some "bob@example.com") (some "pw123")) = (401, "Invalid credentials"))
    ∧ (login wCmpFalse wSign wUsers (some "alice@example.com") (some "pw123") =
        LoginResp.invalidCredentials
      ∧ loginStatusBody (login wCmpFalse wSign wUsers
          (some "alice@example.com") (some "pw123")) = (401, "Invalid credentials")) := by
  constructor
  · exact login_mismatch_indistinguishable wCmpFalse wSign wUsers "bob@example.com" "pw123"
      (by decide) (by decide) (Or.inl (by decide))
  · exact login_mismatch_indistinguishable wCmpFalse wSign wUsers "alice@example.com" "pw123"
      (by decide) (by decide)
      (Or.inr ⟨{ id := 1, email := "alice@example.com", password_hash := "hash1" },
        by decide, rfl⟩)

/-- C7 counterexample: at time 100 the store holding only the expired
link 1234 and the empty store produce the same single not-found response
for the code 1234: the absent and expired outcomes are not distinct. -/
theorem linkContent_absent_expired_same_response :
    linkContent 100 [expiredLink] demoMedia "1234" = LinkContentResp.notFound
    ∧ linkContent 100 [] demoMedia "1234" = LinkContentResp.notFound
    ∧ linkContent 100 [expiredLink] demoMedia "1234" =
        linkContent 100 [] demoMedia "1234" := by
  decide

/-- C7 amended: when no link row carries the requested code unexpired at
query time (absent code and expired link alike) the resolver yields the
single 404 response and never the media set; on a hit it returns exactly
the media rows of the group and owning user of the found link. -/
theorem linkContent_amended (now : Nat) (links : List Link) (media : List MediaRow)
    (code : String) :
    ((¬ ∃ l ∈ links, l.link_code = code ∧ now < l.expires_at) →
      linkContent now links media code = LinkContentResp.notFound)
    ∧ (∀ l, links.find?
          (fun l2 => l2.link_code == code && decide (now < l2.expires_at)) = some l →
        linkContent now links media code =
          LinkContentResp.media
            (media.filter (fun m => m.group_id == some l.group_id && m.user_id == l.user_id))
        ∧ ∀ m, m ∈ media.filter
              (fun m => m.group_id == some l.group_id && m.user_id == l.user_id)
            ↔ (m ∈ media ∧ m.group_id = some l.group_id ∧ m.user_id = l.user_id)) := by
  constructor
  · intro hno
    have hfind : links.find?
        (fun l2 => l2.link_code == code && decide (now < l2.expires_at)) = none := by
      rw [List.find?_eq_none]
      intro l hl hp
      exact hno ⟨l, hl, by simpa using hp⟩
    simp [linkContent, hfind]
  · intro l hfind
    constructor
    · simp [linkContent, hfind]
    · intro m
      simp [List.mem_filter, and_assoc]

/-- Witness for C7 amended: a live link at time 100; an unknown code
yields the 404 response and the stored code yields the filtered media. -/
theorem linkContent_amended_witness :
    linkContent 100 [liveLink] wMedia "9999" = LinkContentResp.notFound
    ∧ linkContent 100 [liveLink] wMedia "4321" =
        LinkContentResp.media
          (wMedia.filter (fun m =>
            m.group_id == some liveLink.group_id && m.user_id == liveLink.user_id)) := by
  constructor
  · exact (linkContent_amended 100 [liveLink] wMedia "9999").1 (by decide)
  · exact ((linkContent_amended 100 [liveLink] wMedia "4321").2 liveLink (by decide)).1

/-- C8 counterexample: the offline payment route carries no admin gate:
an authenticated caller whose email is not the administrator address is
answered with the recorded success message, not with the 403 forbidden
response the claim requires. -/
theorem paymentOffline_not_admin_gated :
    nonAdmin.email ≠ superAdminEmail
    ∧ verifySuperAdmin (some nonAdmin) = false
    ∧ paymentOfflineRoute wVerifyBob (some "Bearer good") = Sum.inr OfflineResp.recorded
    ∧ Sum.inr OfflineResp.recorded ≠
        (Sum.inl (403, "Forbidden: Super admin only") : Sum (Nat × String) OfflineResp) := by
  decide

/-- C8 amended: the two payment-settings endpoints are admin-gated: a
requester whose token does not carry the administrator email receives the
403 forbidden response, the store is untouched, and the answer does not
depend on the stored settings, revealing nothing about them; the offline
payment route, however, is gated by the bearer check only and answers
every authenticated caller with the recorded message. -/
theorem adminGate_amended (u : TokenClaims) (settings s2 : List PaymentSetting)
    (ki ks : Option String) (verify : String → Option TokenClaims) (ah : Option String)
    (hu : u.email ≠ superAdminEmail) (hauth : authenticateToken verify ah = AuthResult.ok u) :
    getPaymentSettings (some u) settings = SettingsResp.forbidden
    ∧ (postPaymentSettings (some u) ki ks settings).1 = PostSettingsResp.forbidden
    ∧ (postPaymentSettings (some u) ki ks settings).2 = settings
    ∧ getPaymentSettings (some u) settings = getPaymentSettings (some u) s2
    ∧ paymentOfflineRoute verify ah = Sum.inr OfflineResp.recorded := by
  have hgate : verifySuperAdmin (some u) = false := by
    simp only [verifySuperAdmin]
    exact beq_eq_false_iff_ne.mpr hu
  refine ⟨?_, ?_, ?_, ?_, ?_⟩
  · simp [getPaymentSettings, hgate]
  · simp [postPaymentSettings, hgate]
  · simp [postPaymentSettings, hgate]
  · simp [getPaymentSettings, hgate]
  · simp [paymentOfflineRoute, hauth]

/-- Witness for C8 amended at the bob claims and a one-row settings
store. -/
theorem adminGate_amended_witness :
    getPaymentSettings (some nonAdmin) wSettings = SettingsResp.forbidden
    ∧ (postPaymentSettings (some nonAdmin) (some "k") (some "s") wSettings).1 =
        PostSettingsResp.forbidden
    ∧ (postPaymentSettings (some nonAdmin) (some "k") (some "s") wSettings).2 = wSettings
    ∧ getPaymentSettings (some nonAdmin) wSettings = getPaymentSettings (some nonAdmin) []
    ∧ paymentOfflineRoute wVerifyBob (some "Bearer good") = Sum.inr OfflineResp.recorded :=
  adminGate_amended nonAdmin wSettings [] (some "k") (some "s") wVerifyBob
    (some "Bearer good") (by decide) (by decide)

/-- C9: an authenticated upload of zero files yields the 400 validation
response with the store untouched, and an upload of one or more files
appends exactly one media row per file, every row owned by the caller,
and emits exactly one broadcast event to the room of the owning user. -/
theorem mediaUpload_rows_and_single_event (userId : Nat) (files : List MediaFile)
    (groupId : Option Nat) (media : List MediaRow) (events : List BroadcastEvent) :
    (files = [] →
      mediaUpload userId files groupId media events =
        (UploadResp.validationError, media, events))
    ∧ (files ≠ [] →
      mediaUpload userId files groupId media events =
        (UploadResp.success,
          media ++ files.map (fun f =>
            ({ user_id := userId, type := mediaTypeOf f.mimetype,
               file_path := f.filename, group_id := groupId } : MediaRow)),
          events ++ [{ channel := "user_" ++ toString userId, event := "mediaUpdated",
                       group_id := groupId }])
      ∧ (files.map (fun f =>
            ({ user_id := userId, type := mediaTypeOf f.mimetype,
               file_path := f.filename, group_id := groupId } : MediaRow))).length =
          files.length
      ∧ ∀ r ∈ files.map (fun f =>
            ({ user_id := userId, type := mediaTypeOf f.mimetype,
               file_path := f.filename, group_id := groupId } : MediaRow)),
          r.user_id = userId) := by
  constructor
  · intro hnil
    subst hnil
    rfl
  · intro hne
    have hie : files.isEmpty = false := by
      cases files with
      | nil => exact absurd rfl hne
      | cons a l => rfl
    refine ⟨?_, by simp, ?_⟩
    · simp [mediaUpload, hie]
    · intro r hr
      obtain ⟨f, hf, rfl⟩ := List.mem_map.mp hr
      rfl

/-- Witness for C9: zero files, then two files. -/
theorem mediaUpload_rows_and_single_event_witness :
    mediaUpload 1 [] none [] [] = (UploadResp.validationError, [], [])
    ∧ mediaUpload 1 wFiles (some 4) [] [] =
        (UploadResp.success,
          [] ++ wFiles.map (fun f =>
            ({ user_id := 1, type := mediaTypeOf f.mimetype,
               file_path := f.filename, group_id := some 4 } : MediaRow)),
          [] ++ [{ channel := "user_" ++ toString 1, event := "mediaUpdated",
                   group_id := some 4 }]) := by
  constructor
  · exact (mediaUpload_rows_and_single_event 1 [] none [] []).1 rfl
  · exact ((mediaUpload_rows_and_single_event 1 wFiles (some 4) [] []).2 (by decide)).1

/-- C10: every link row the generation handler appends carries an expiry
of exactly 2592000000 milliseconds, thirty days, past the handling time;
rows already in the store are untouched, and no request input reaches the
expiry computation, so the lifetime is fixed per request. -/
theorem linkGenerate_thirty_day_expiry (now : Nat) (domain : Option String)
    (userId : Nat) (groupId : Option Nat) (links : List Link) (draws : List (Fin 9000))
    (resp : GenerateResp) (links2 : List Link)
    (h : linkGenerate now domain userId groupId links draws = some (resp, links2)) :
    ∀ l ∈ links2, l ∈ links ∨ (l.created_at = now ∧ l.expires_at = now + 2592000000) := by
  intro l hl
  cases groupId with
  | none =>
    simp only [linkGenerate, Option.some.injEq, Prod.mk.injEq] at h
    rw [← h.2] at hl
    exact Or.inl hl
  | some g =>
    simp only [linkGenerate] at h
    by_cases hg0 : g = 0
    · rw [if_pos hg0] at h
      simp only [Option.some.injEq, Prod.mk.injEq] at h
      rw [← h.2] at hl
      exact Or.inl hl
    · rw [if_neg hg0] at h
      cases hgen : generateUniqueLinkCode links draws with
      | none =>
        rw [hgen] at h
        exact absurd h (by simp)
      | some code =>
        rw [hgen] at h
        simp only [Option.some.injEq, Prod.mk.injEq] at h
        rw [← h.2] at hl
        rcases List.mem_append.mp hl with hmem | hmem
        · exact Or.inl hmem
        · right
          obtain rfl := List.mem_singleton.mp hmem
          exact ⟨rfl, by norm_num⟩

/-- Witness for C10 at a concrete request handled at time 100: the row
the handler creates is not an old row and carries the thirty-day expiry. -/
theorem linkGenerate_thirty_day_expiry_witness :
    wGenLink ∈ ([] : List Link)
    ∨ (wGenLink.created_at = 100 ∧ wGenLink.expires_at = 100 + 2592000000) :=
  linkGenerate_thirty_day_expiry 100 none 1 (some 4) [] [⟨0, by omega⟩]
    (GenerateResp.link "http://localhost:4000/1000") [wGenLink] (by decide)
    wGenLink (List.mem_singleton.mpr rfl)

end AdPanel
